import Mathlib

/-!
Shallow embedding of the MechAnim core (src/utils/kinematics.ts and
src/utils/optimizer.ts) and verification of the frozen claims.

JavaScript numbers are modelled as real numbers (ℝ); optional numeric
fields of `MechanismConfig` are modelled as `Option ℝ`, with `.getD`
for the `??` operator and `orD` for the `||` operator (which also
replaces the value 0 by the default, since 0 is falsy in JS).
NaN/Infinity corner cases (e.g. an empty target path fed to the
fitness evaluator) are outside the model; theorems that would touch
them carry an explicit non-emptiness hypothesis.
-/

noncomputable section

namespace MechAnim

open scoped Classical

/-- 2-D point, mirroring `Point` of src/types.ts. -/
structure Point where
  x : ℝ
  y : ℝ

/-- The tagged mechanism variant, mirroring `MechanismType` of src/types.ts. -/
inductive MechanismType where
  | crank
  | fourbar
  | piston
  | yoke
  | quickReturn
  | fivebar
deriving DecidableEq, Repr

/-- Mechanism configuration, mirroring `MechanismConfig` of src/types.ts.
Fields marked optional (`?`) in the source are `Option ℝ` here. -/
structure MechanismConfig where
  id : String
  type : MechanismType
  visible : Bool
  color : String
  anchorX : Option ℝ
  anchorY : Option ℝ
  groundAngle : Option ℝ
  crankLength : ℝ
  groundLength : ℝ
  couplerLength : ℝ
  rockerLength : ℝ
  sliderOffset : ℝ
  couplerPointDist : ℝ
  couplerPointAngle : ℝ
  speed1 : Option ℝ
  speed2 : Option ℝ
  gearRatio : Option ℝ
  rodLength : Option ℝ
  phase : Option ℝ
  showOutputGear : Option Bool
  outputGearRadius : Option ℝ

/-- Solver output, mirroring `JointState` of src/types.ts. -/
structure JointState where
  p1 : Point
  p2 : Point
  j1 : Point
  j2 : Point
  aux : Option Point
  effector : Point
  isValid : Bool

/-- JS `x || d` on an optional number: `undefined` and `0` are falsy. -/
def orD (o : Option ℝ) (d : ℝ) : ℝ :=
  match o with
  | none => d
  | some v => if v = 0 then d else v

/-- `toRad` of src/utils/kinematics.ts. -/
def toRad (deg : ℝ) : ℝ := deg * Real.pi / 180

/-- JS `Math.atan2(y, x)` (note `Math.atan2(0, 0) = 0`). -/
def atan2 (y x : ℝ) : ℝ :=
  if 0 < x then Real.arctan (y / x)
  else if x < 0 then
    (if 0 ≤ y then Real.arctan (y / x) + Real.pi else Real.arctan (y / x) - Real.pi)
  else if 0 < y then Real.pi / 2
  else if y < 0 then -(Real.pi / 2)
  else 0

/-- Squared euclidean distance between two points. -/
def sqDist (p q : Point) : ℝ := (p.x - q.x) ^ 2 + (p.y - q.y) ^ 2

/-- Euclidean distance between two points. -/
def ptDist (p q : Point) : ℝ := Real.sqrt (sqDist p q)

/-- `getCircleIntersection` of src/utils/kinematics.ts. -/
def getCircleIntersection (p0 : Point) (r0 : ℝ) (p1 : Point) (r1 : ℝ)
    (flip : Bool := false) : Option Point :=
  let dx := p1.x - p0.x
  let dy := p1.y - p0.y
  let d := Real.sqrt (dx * dx + dy * dy)
  let EPSILON : ℝ := 0.1
  if d > r0 + r1 + EPSILON ∨ d < |r0 - r1| - EPSILON ∨ d = 0 then
    none
  else
    let a := (r0 * r0 - r1 * r1 + d * d) / (2 * d)
    let h := Real.sqrt (max 0 (r0 * r0 - a * a))
    let x2 := p0.x + (dx * a) / d
    let y2 := p0.y + (dy * a) / d
    if flip then
      some ⟨x2 - (h * dy) / d, y2 + (h * dx) / d⟩
    else
      some ⟨x2 + (h * dy) / d, y2 - (h * dx) / d⟩

/-- `calculateLinkage` of src/utils/kinematics.ts: closed-form position
analysis for one drive angle, dispatched over the mechanism variant. -/
def calculateLinkage (config : MechanismConfig) (crankAngleRad : ℝ) : JointState :=
  let p1 : Point := ⟨config.anchorX.getD 0, config.anchorY.getD 0⟩
  let s1 := config.speed1.getD 1
  let angle1 := crankAngleRad * s1
  let j1 : Point := ⟨p1.x + config.crankLength * Real.cos angle1,
                     p1.y + config.crankLength * Real.sin angle1⟩
  match config.type with
  | .crank =>
      ⟨p1, p1, j1, j1, none, j1, true⟩
  | .fourbar =>
      let gAngle := toRad (config.groundAngle.getD 0)
      let p2 : Point := ⟨p1.x + config.groundLength * Real.cos gAngle,
                         p1.y + config.groundLength * Real.sin gAngle⟩
      match getCircleIntersection j1 config.couplerLength p2 config.rockerLength false with
      | none => ⟨p1, p2, j1, p1, none, p1, false⟩
      | some j2 =>
          let couplerAngle := atan2 (j2.y - j1.y) (j2.x - j1.x)
          let effectorAngle := couplerAngle + toRad config.couplerPointAngle
          let effector : Point := ⟨j1.x + config.couplerPointDist * Real.cos effectorAngle,
                                   j1.y + config.couplerPointDist * Real.sin effectorAngle⟩
          ⟨p1, p2, j1, j2, none, effector, true⟩
  | .fivebar =>
      let gAngle := toRad (config.groundAngle.getD 0)
      let p2 : Point := ⟨p1.x + config.groundLength * Real.cos gAngle,
                         p1.y + config.groundLength * Real.sin gAngle⟩
      let s2 := config.speed2.getD (config.gearRatio.getD 1)
      let ph := config.phase.getD 0
      let angle2 := crankAngleRad * s2 + ph
      let aux : Point := ⟨p2.x + config.rockerLength * Real.cos angle2,
                          p2.y + config.rockerLength * Real.sin angle2⟩
      let r1 := config.couplerLength
      let r2 := orD config.rodLength 100
      match getCircleIntersection j1 r1 aux r2 false with
      | none => ⟨p1, p2, j1, p1, some aux, p1, false⟩
      | some j2 =>
          let dx := j2.x - j1.x
          let dy := j2.y - j1.y
          let angle := atan2 dy dx
          let extension := config.couplerPointDist
          let effector : Point := ⟨j2.x + extension * Real.cos angle,
                                   j2.y + extension * Real.sin angle⟩
          ⟨p1, p2, j1, j2, some aux, effector, true⟩
  | .piston =>
      let trackAngle := toRad (config.groundAngle.getD 0)
      let offset := if config.sliderOffset = 0 then 0 else config.sliderOffset
      let dx := j1.x - p1.x
      let dy := j1.y - p1.y
      let localJ1x := dx * Real.cos (-trackAngle) - dy * Real.sin (-trackAngle)
      let localJ1y := dx * Real.sin (-trackAngle) + dy * Real.cos (-trackAngle)
      let localTrackY := offset
      let dyLink := localTrackY - localJ1y
      if |dyLink| > config.couplerLength then
        let p2x := p1.x + localJ1x * Real.cos trackAngle - localTrackY * Real.sin trackAngle
        let p2y := p1.y + localJ1x * Real.sin trackAngle + localTrackY * Real.cos trackAngle
        ⟨p1, ⟨p2x, p2y⟩, j1, p1, none, p1, false⟩
      else
        let dxLink := Real.sqrt (config.couplerLength * config.couplerLength - dyLink * dyLink)
        let localJ2x := localJ1x + dxLink
        let localJ2y := localTrackY
        let j2 : Point := ⟨p1.x + localJ2x * Real.cos trackAngle - localJ2y * Real.sin trackAngle,
                           p1.y + localJ2x * Real.sin trackAngle + localJ2y * Real.cos trackAngle⟩
        let couplerAngle := atan2 (j2.y - j1.y) (j2.x - j1.x)
        let effectorAngle := couplerAngle + toRad config.couplerPointAngle
        let effector : Point := ⟨j1.x + config.couplerPointDist * Real.cos effectorAngle,
                                 j1.y + config.couplerPointDist * Real.sin effectorAngle⟩
        ⟨p1, j2, j1, j2, none, effector, true⟩
  | .yoke =>
      let trackAngle := toRad (config.groundAngle.getD 0)
      let offset := if config.sliderOffset = 0 then 0 else config.sliderOffset
      let dx := j1.x - p1.x
      let dy := j1.y - p1.y
      let localJ1x := dx * Real.cos (-trackAngle) - dy * Real.sin (-trackAngle)
      let localJ2x := localJ1x
      let localJ2y := offset
      let j2 : Point := ⟨p1.x + localJ2x * Real.cos trackAngle - localJ2y * Real.sin trackAngle,
                         p1.y + localJ2x * Real.sin trackAngle + localJ2y * Real.cos trackAngle⟩
      let effector : Point := ⟨j2.x + config.couplerPointDist * Real.cos (toRad config.couplerPointAngle),
                               j2.y + config.couplerPointDist * Real.sin (toRad config.couplerPointAngle)⟩
      ⟨p1, j2, j1, j2, none, effector, true⟩
  | .quickReturn =>
      let gAngle := toRad (config.groundAngle.getD 0)
      let localP2x := config.groundLength
      let localP2y := config.sliderOffset
      let p2 : Point := ⟨p1.x + localP2x * Real.cos gAngle - localP2y * Real.sin gAngle,
                         p1.y + localP2x * Real.sin gAngle + localP2y * Real.cos gAngle⟩
      let armAngle := atan2 (j1.y - p2.y) (j1.x - p2.x)
      let j2 : Point := ⟨p2.x + config.rockerLength * Real.cos armAngle,
                         p2.y + config.rockerLength * Real.sin armAngle⟩
      let effAngle := armAngle + toRad config.couplerPointAngle
      let effector : Point := ⟨j2.x + config.couplerPointDist * Real.cos effAngle,
                               j2.y + config.couplerPointDist * Real.sin effAngle⟩
      ⟨p1, p2, j1, j2, none, effector, true⟩

/-- Output of the curve sampler. -/
structure CurveResult where
  points : List Point
  percentValid : ℝ

/-- `generateCurvePoints` of src/utils/kinematics.ts: sample the effector
over `resolution × loops` drive angles; `loops = 8` for Five-Bar. -/
def generateCurvePoints (config : MechanismConfig) (resolution : ℕ := 36) : CurveResult :=
  let loops : ℕ := if config.type = .fivebar then 8 else 1
  let res := resolution * loops
  let states := (List.range res).map
    (fun i : ℕ => calculateLinkage config ((i : ℝ) / (resolution : ℝ) * 2 * Real.pi))
  let points := (states.filter (fun st => st.isValid)).map (fun st => st.effector)
  let validCount := (states.filter (fun st => st.isValid)).length
  ⟨points, (validCount : ℝ) / (res : ℝ)⟩

/-! ## Optimizer module (src/utils/optimizer.ts)

Every call to `Math.random()` in the source is modelled by a dedicated
field of an explicit draw record (`GenRand`, `MutRand`, `MemberRand`):
the draws are i.i.d., so pre-drawing them into a record is faithful.
Array indices of the form `Math.floor(Math.random() * len)` (always in
range in the source) are modelled as a natural number wrapped by
`% len` to keep the functions total. -/

/-- `MECHANISM_TYPES` of src/utils/optimizer.ts (note: `crank` is absent). -/
def MECHANISM_TYPES : List MechanismType :=
  [.fourbar, .piston, .yoke, .quickReturn, .fivebar]

/-- Bounding-box summary returned by `getBounds`. -/
structure Bounds where
  w : ℝ
  h : ℝ
  cx : ℝ
  cy : ℝ

/-- `getBounds` of src/utils/optimizer.ts. The JS source folds from
`±Infinity`; on a non-empty list that equals folding from the first
point, and the source only uses it on non-empty paths. -/
def getBounds (points : List Point) : Bounds :=
  match points with
  | [] => ⟨0, 0, 0, 0⟩
  | p :: ps =>
      let minX := ps.foldl (fun m q => min m q.x) p.x
      let maxX := ps.foldl (fun m q => max m q.x) p.x
      let minY := ps.foldl (fun m q => min m q.y) p.y
      let maxY := ps.foldl (fun m q => max m q.y) p.y
      ⟨maxX - minX, maxY - minY, (minX + maxX) / 2, (minY + maxY) / 2⟩

/-- Inner nearest-point loop of the chamfer distance: minimum squared
distance from `p` to a point of the list.  The JS loop starts from
`Infinity`; on a non-empty list that equals folding from the first
element.  The `[]` case (0 here, `Infinity` in JS) is only reached for
an empty path; theorems about the evaluator assume a non-empty target. -/
def minSqDist (p : Point) : List Point → ℝ
  | [] => 0
  | q :: qs => qs.foldl (fun m r => min m (sqDist p r)) (sqDist p q)

/-- `evaluateFitness` of src/utils/optimizer.ts. -/
def evaluateFitness (config : MechanismConfig) (targetPath : List Point) : ℝ :=
  let resolution : ℕ := if config.type = .fivebar then 120 else 60
  let sampled := generateCurvePoints config resolution
  let generatedPath := sampled.points
  let percentValid := sampled.percentValid
  if percentValid < 1 then
    1e9 + (1.0 - percentValid) * 1e9
  else if generatedPath.length < 10 then 1e9
  else
    let forwardError :=
      ((generatedPath.map (fun pg => minSqDist pg targetPath)).sum) / (generatedPath.length : ℝ)
    let backwardError :=
      ((targetPath.map (fun pt => minSqDist pt generatedPath)).sum) / (targetPath.length : ℝ)
    let closurePenalty :=
      if config.type = .fivebar then
        match generatedPath with
        | [] => 0
        | p :: ps =>
            let startP := p
            let endP := (p :: ps).getLast (by simp)
            let gap := (startP.x - endP.x) ^ 2 + (startP.y - endP.y) ^ 2
            if gap > 50 then gap * 20 else 0
      else 0
    forwardError + backwardError + closurePenalty

/-- First block of `enforceFiveBarConstraints` (src/utils/optimizer.ts
lines 72-80): if the total arm is below `1.15 × maxSeparation`, grow
coupler and rod equally by half the shortfall each. -/
def enforceFiveBarGrow (conf : MechanismConfig) : MechanismConfig :=
  let maxSeparation := |conf.groundLength| + |conf.crankLength| + |conf.rockerLength|
  let currentTotalArm := |conf.couplerLength| + |orD conf.rodLength 100|
  let minTotalArm := maxSeparation * 1.15
  if currentTotalArm < minTotalArm then
    let diff := minTotalArm - currentTotalArm
    { conf with couplerLength := conf.couplerLength + diff / 2,
                rodLength := some (orD conf.rodLength 100 + diff / 2) }
  else conf

/-- Second block of `enforceFiveBarConstraints` (src/utils/optimizer.ts
lines 82-89): if the arm difference exceeds the minimum separation, pull
both arms toward their average. -/
def enforceFiveBarPull (conf : MechanismConfig) : MechanismConfig :=
  let armDiff := |conf.couplerLength - orD conf.rodLength 100|
  let minSeparation := max 0 (|conf.groundLength| - |conf.crankLength| - |conf.rockerLength|)
  if armDiff > minSeparation then
    let avg := (conf.couplerLength + orD conf.rodLength 100) / 2
    { conf with couplerLength := (conf.couplerLength + avg) / 2,
                rodLength := some ((orD conf.rodLength 100 + avg) / 2) }
  else conf

/-- `enforceFiveBarConstraints` of src/utils/optimizer.ts (the Constraint
Repairer); the in-place mutation of the source is modelled functionally,
as the two sequential repair blocks applied in order. -/
def enforceFiveBarConstraints (conf : MechanismConfig) : MechanismConfig :=
  if conf.type ≠ .fivebar then conf
  else enforceFiveBarPull (enforceFiveBarGrow conf)

/-- One record of random draws for `generateSmartConfig`; each field is
one `Math.random()` call site of the source. -/
structure GenRand where
  typeIdx : ℕ
  axR : ℝ
  ayR : ℝ
  gaR : ℝ
  sGL : ℝ
  sCL : ℝ
  sCPL : ℝ
  sRL : ℝ
  sCPD : ℝ
  sRod : ℝ
  cpaR : ℝ
  phR : ℝ
  yokeR1 : ℝ
  yokeS : ℝ
  pisR1 : ℝ
  pisS : ℝ
  pisS2 : ℝ
  qrR1 : ℝ
  qrS1 : ℝ
  qrS2 : ℝ
  qrS3 : ℝ
  fbDirR : ℝ
  fbDevR : ℝ
  fbGL : ℝ
  fbCL : ℝ
  fbRL : ℝ
  fbArmR : ℝ
  fbCpdR1 : ℝ
  fbCpdS : ℝ

/-- The `availableTypes` computation of `generateSmartConfig`
(src/utils/optimizer.ts lines 106-111). -/
def availTypes (forcedType excludedType : Option MechanismType) : List MechanismType :=
  match forcedType with
  | some t => [t]
  | none =>
      match excludedType with
      | some e => MECHANISM_TYPES.filter (fun t => t ≠ e)
      | none => MECHANISM_TYPES

/-- `generateSmartConfig` of src/utils/optimizer.ts (the Candidate
Generator).  The random id string is modelled as `""`. -/
def generateSmartConfig (targetPath : Option (List Point))
    (forcedType excludedType : Option MechanismType) (r : GenRand) : MechanismConfig :=
  let cxCyScale : ℝ × ℝ × ℝ :=
    match targetPath with
    | some (p :: ps) =>
        let bounds := getBounds (p :: ps)
        (bounds.cx, bounds.cy, max bounds.w bounds.h)
    | _ => (0, 0, 100)
  let cx := cxCyScale.1
  let cy := cxCyScale.2.1
  let scale := cxCyScale.2.2
  let s := fun (factor rnd : ℝ) => scale * factor * (0.5 + rnd)
  let availableTypes := availTypes forcedType excludedType
  let ty := availableTypes.getD (r.typeIdx % availableTypes.length) .fourbar
  let anchorX := cx + (r.axR - 0.5) * scale * 3.0
  let anchorY := cy + (r.ayR - 0.5) * scale * 3.0
  let config : MechanismConfig :=
    { id := "", type := ty, visible := true, color := "#3b82f6",
      anchorX := some anchorX, anchorY := some anchorY,
      groundAngle := some (r.gaR * 360),
      groundLength := s 0.8 r.sGL,
      crankLength := s 0.3 r.sCL,
      couplerLength := s 1.0 r.sCPL,
      rockerLength := s 0.8 r.sRL,
      sliderOffset := 0,
      couplerPointDist := s 0.5 r.sCPD,
      couplerPointAngle := r.cpaR * 360,
      speed1 := some 1, speed2 := some 1,
      gearRatio := none,
      rodLength := some (s 1.0 r.sRod),
      phase := some (r.phR * Real.pi * 2),
      showOutputGear := none, outputGearRadius := none }
  match ty with
  | .yoke =>
      { config with sliderOffset := (r.yokeR1 - 0.5) * s 0.5 r.yokeS }
  | .piston =>
      let so := (r.pisR1 - 0.5) * s 0.5 r.pisS
      { config with sliderOffset := so,
                    couplerLength := |so| + config.crankLength + s 0.5 r.pisS2 }
  | .quickReturn =>
      { config with sliderOffset := (r.qrR1 - 0.5) * s 1.0 r.qrS1,
                    groundLength := max (s 0.5 r.qrS2) (config.crankLength + 10),
                    rockerLength := s 1.5 r.qrS3 }
  | .fivebar =>
      let speed1 : ℝ := 1
      let dir : ℝ := if r.fbDirR > 0.5 then 1 else -1
      let deviation := (r.fbDevR - 0.5) * 0.2
      let speed2 := speed1 * dir + deviation
      let groundLength := s 0.6 r.fbGL
      let crankLength := s 0.3 r.fbCL
      let rockerLength := s 0.3 r.fbRL
      let gearMidX := anchorX + (Real.cos 0 * groundLength) / 2
      let gearMidY := anchorY + (Real.sin 0 * groundLength) / 2
      let distToTarget := Real.sqrt ((cx - gearMidX) ^ 2 + (cy - gearMidY) ^ 2)
      let avgArmLen := distToTarget * (1.0 + r.fbArmR * 0.4)
      enforceFiveBarConstraints
        { config with speed1 := some speed1, speed2 := some speed2,
                      groundLength := groundLength, crankLength := crankLength,
                      rockerLength := rockerLength,
                      couplerLength := avgArmLen, rodLength := some avgArmLen,
                      couplerPointDist := r.fbCpdR1 * s 0.5 r.fbCpdS }
  | _ => config

/-- JS `if (x) x *= f` on an optional number (0 and `undefined` are falsy). -/
def scaleIf (o : Option ℝ) (f : ℝ) : Option ℝ :=
  match o with
  | none => none
  | some v => if v = 0 then some v else some (v * f)

/-- One record of random draws for `mutateConfig`; each field is one
`Math.random()` call site of the source. -/
structure MutRand where
  structCoin : ℝ
  structIdx : ℕ
  structDirR : ℝ
  scaleCoin : ℝ
  scaleR : ℝ
  axCoin : ℝ
  axR : ℝ
  ayCoin : ℝ
  ayR : ℝ
  gaCoin : ℝ
  gaR : ℝ
  glCoin : ℝ
  glR : ℝ
  cplCoin : ℝ
  cplR : ℝ
  rkCoin : ℝ
  rkR : ℝ
  cpdCoin : ℝ
  cpdR : ℝ
  crCoin : ℝ
  crR : ℝ
  rodCoin : ℝ
  rodR : ℝ
  phCoin : ℝ
  phR : ℝ
  spCoin : ℝ
  spJitR : ℝ
  soCoin : ℝ
  soR : ℝ
  cpaCoin : ℝ
  cpaR : ℝ

/-- Post-processing tail of `mutateConfig` (src/utils/optimizer.ts lines
256-264): clamp ground/crank/coupler/rocker lengths to `max(5, |·|)`,
clamp `rodLength` the same way only when it is truthy (non-zero and
present), then run the Constraint Repairer on Five-Bar variants. -/
def mutatePost (c6 : MechanismConfig) : MechanismConfig :=
  let c7 :=
    { c6 with
      groundLength := max 5 |c6.groundLength|,
      crankLength := max 5 |c6.crankLength|,
      couplerLength := max 5 |c6.couplerLength|,
      rockerLength := max 5 |c6.rockerLength|,
      rodLength :=
        match c6.rodLength with
        | none => none
        | some v => if v = 0 then some v else some (max 5 |v|) }
  if c7.type = MechanismType.fivebar then enforceFiveBarConstraints c7 else c7

/-- `mutateConfig` of src/utils/optimizer.ts (the Mutation Operator).
The source's non-null assertions `anchorX!`, `anchorY!`, `groundAngle!`
are modelled with `.getD 0`; the dead local `dir` of the speed-nudge
block (computed but never read) is omitted. -/
def mutateConfig (config : MechanismConfig) (temperature : ℝ) (fixedType : Bool)
    (excludedType : Option MechanismType) (r : MutRand) : MechanismConfig :=
  let mutate := fun (val rnd : ℝ) => val + val * 0.2 * temperature * (rnd - 0.5) * 2
  let mutateAbs := fun (val amount rnd : ℝ) => val + (rnd - 0.5) * amount * temperature
  -- Structure Mutation
  let c1 :=
    if fixedType = false ∧ temperature > 0.3 ∧ r.structCoin < 0.15 then
      let types0 :=
        match excludedType with
        | some e => MECHANISM_TYPES.filter (fun t => t ≠ e)
        | none => MECHANISM_TYPES
      let types := types0.filter (fun t => t ≠ config.type)
      if types.length > 0 then
        let newType := types.getD (r.structIdx % types.length) .fourbar
        if newType = .fivebar then
          let dir : ℝ := if r.structDirR > 0.5 then 1 else -1
          { config with type := newType, speed1 := some 1, speed2 := some dir,
                        rodLength := some config.couplerLength }
        else
          { config with type := newType }
      else config
    else config
  -- Global Scale Mutation
  let c2 :=
    if r.scaleCoin < 0.15 then
      let scaleFactor := 1.0 + (r.scaleR - 0.5) * 0.5 * temperature
      { c1 with groundLength := c1.groundLength * scaleFactor,
                crankLength := c1.crankLength * scaleFactor,
                couplerLength := c1.couplerLength * scaleFactor,
                rockerLength := c1.rockerLength * scaleFactor,
                rodLength := scaleIf c1.rodLength scaleFactor,
                sliderOffset :=
                  if c1.sliderOffset = 0 then c1.sliderOffset
                  else c1.sliderOffset * scaleFactor,
                couplerPointDist :=
                  if c1.couplerPointDist = 0 then c1.couplerPointDist
                  else c1.couplerPointDist * scaleFactor,
                outputGearRadius := scaleIf c1.outputGearRadius scaleFactor }
    else c1
  -- Position & Orientation
  let c3 :=
    { c2 with
      anchorX := if r.axCoin < 0.7 then some (mutateAbs (c2.anchorX.getD 0) 150 r.axR) else c2.anchorX,
      anchorY := if r.ayCoin < 0.7 then some (mutateAbs (c2.anchorY.getD 0) 150 r.ayR) else c2.anchorY,
      groundAngle := if r.gaCoin < 0.7 then some (mutateAbs (c2.groundAngle.getD 0) 60 r.gaR) else c2.groundAngle }
  -- Dimension Mutation
  let c4 :=
    { c3 with
      groundLength := if r.glCoin < 0.7 then mutate c3.groundLength r.glR else c3.groundLength,
      couplerLength := if r.cplCoin < 0.7 then mutate c3.couplerLength r.cplR else c3.couplerLength,
      rockerLength := if r.rkCoin < 0.7 then mutate c3.rockerLength r.rkR else c3.rockerLength,
      couplerPointDist := if r.cpdCoin < 0.7 then mutate c3.couplerPointDist r.cpdR else c3.couplerPointDist,
      crankLength := if r.crCoin < 0.7 then mutate c3.crankLength r.crR else c3.crankLength }
  -- 5-Bar Specific Mutation
  let c5 :=
    if c4.type = MechanismType.fivebar then
      let c5a :=
        if r.rodCoin < 0.7 then
          { c4 with rodLength := some (mutate (orD c4.rodLength 100) r.rodR) }
        else c4
      let c5b :=
        if r.phCoin < 0.6 then
          { c5a with phase := some (orD c5a.phase 0 + (r.phR - 0.5) * Real.pi * 0.5 * temperature) }
        else c5a
      if r.spCoin < 0.3 then
        let jitter := (r.spJitR - 0.5) * 0.05
        let newSpeed2a := orD c5b.speed2 1 + jitter
        let s1 := orD c5b.speed1 1
        let isCounter := (s1 > 0 ∧ newSpeed2a < 0) ∨ (s1 < 0 ∧ newSpeed2a > 0)
        let targetBase := if isCounter then -s1 else s1
        let newSpeed2 :=
          if |newSpeed2a - targetBase| > 0.1 then
            targetBase + (if newSpeed2a > targetBase then 0.1 else -0.1)
          else newSpeed2a
        { c5b with speed2 := some newSpeed2 }
      else c5b
    else c4
  let c6 :=
    { c5 with
      sliderOffset := if r.soCoin < 0.7 then mutateAbs c5.sliderOffset 30 r.soR else c5.sliderOffset,
      couplerPointAngle := if r.cpaCoin < 0.7 then mutateAbs c5.couplerPointAngle 60 r.cpaR else c5.couplerPointAngle }
  mutatePost c6

/-! ## Optimizer Driver (the evolutionary loop of `runOptimization`,
src/App.tsx / optimizer module lines 489-548).

Only the generation-count mode is modelled (`durationSeconds = 0`);
the timed mode differs only in the wall-clock break and the progress
used for the temperature.  The per-generation UI report (`setConfig`)
and the cooperative `setTimeout` yield are side effects with no
bearing on the tracked state. -/

/-- A (configuration, fitness) pair of the candidate pool. -/
structure ScoredConfig where
  mech : MechanismConfig
  score : ℝ

/-- Random draws consumed for one freshly built population member. -/
structure MemberRand where
  freshCoin : ℝ
  gen : GenRand
  parentIdx : ℕ
  mutr : MutRand

/-- The caller-visible optimizer state carried across generations. -/
structure DriverState where
  population : List MechanismConfig
  globalBest : MechanismConfig
  globalBestScore : ℝ
  generation : ℕ

/-- One generation of the evolutionary loop of `runOptimization`:
score, sort ascending, update the running global best if the
generation's best strictly beats it, then rebuild the population from
15 elites plus fresh syntheses (10%) or mutated survivors.  The
population always holds 100 members in the source (the head default is
never reached there). -/
def evolveStep (userPath : List Point) (forcedType excludedType : Option MechanismType)
    (rands : ℕ → MemberRand) (st : DriverState) : DriverState :=
  let scored := st.population.map (fun m => ScoredConfig.mk m (evaluateFitness m userPath))
  let sorted := scored.mergeSort (fun a b => decide (a.score ≤ b.score))
  let bestOfGen := sorted.head?.getD ⟨st.globalBest, st.globalBestScore⟩
  let best :=
    if bestOfGen.score < st.globalBestScore then (bestOfGen.mech, bestOfGen.score)
    else (st.globalBest, st.globalBestScore)
  let elites := (sorted.take 15).map (fun sc => sc.mech)
  let survivors := sorted.take 50
  let progress := (st.generation : ℝ) / 100
  let temperature := max 0.05 (1.0 - Real.sqrt progress)
  let fillCount := 100 - elites.length
  let newMembers := (List.range fillCount).map (fun i =>
    let mr := rands i
    if mr.freshCoin < 0.10 then
      generateSmartConfig (some userPath) forcedType excludedType mr.gen
    else
      let parent :=
        (survivors.getD (mr.parentIdx % survivors.length)
          (ScoredConfig.mk st.globalBest st.globalBestScore)).mech
      mutateConfig parent temperature forcedType.isSome excludedType mr.mutr)
  { population := elites ++ newMembers,
    globalBest := best.1, globalBestScore := best.2,
    generation := st.generation + 1 }

/-- The evolutionary loop iterated for `k` generations from `init`,
with `oracle g` supplying generation `g`'s random draws. -/
def runGenerations (userPath : List Point) (forcedType excludedType : Option MechanismType)
    (oracle : ℕ → ℕ → MemberRand) (init : DriverState) : ℕ → DriverState
  | 0 => init
  | k + 1 =>
      let st := runGenerations userPath forcedType excludedType oracle init k
      evolveStep userPath forcedType excludedType (oracle st.generation) st

/-! ## Helper lemmas -/

/-- The grow phase only changes coupler and rod lengths. -/
lemma enforceGrow_fixed (conf : MechanismConfig) :
    (enforceFiveBarGrow conf).type = conf.type ∧
    (enforceFiveBarGrow conf).groundLength = conf.groundLength ∧
    (enforceFiveBarGrow conf).crankLength = conf.crankLength ∧
    (enforceFiveBarGrow conf).rockerLength = conf.rockerLength := by
  simp only [enforceFiveBarGrow]
  split_ifs <;> exact ⟨rfl, rfl, rfl, rfl⟩

/-- The pull phase only changes coupler and rod lengths. -/
lemma enforcePull_fixed (conf : MechanismConfig) :
    (enforceFiveBarPull conf).type = conf.type ∧
    (enforceFiveBarPull conf).groundLength = conf.groundLength ∧
    (enforceFiveBarPull conf).crankLength = conf.crankLength ∧
    (enforceFiveBarPull conf).rockerLength = conf.rockerLength := by
  simp only [enforceFiveBarPull]
  split_ifs <;> exact ⟨rfl, rfl, rfl, rfl⟩

/-- The Constraint Repairer never changes the variant tag. -/
lemma enforceFiveBar_type (conf : MechanismConfig) :
    (enforceFiveBarConstraints conf).type = conf.type := by
  simp only [enforceFiveBarConstraints]
  split_ifs with h
  · rfl
  · rw [(enforcePull_fixed _).1, (enforceGrow_fixed _).1]

/-- The Constraint Repairer never changes ground, crank or rocker lengths. -/
lemma enforceFiveBar_fixed (conf : MechanismConfig) :
    (enforceFiveBarConstraints conf).groundLength = conf.groundLength ∧
    (enforceFiveBarConstraints conf).crankLength = conf.crankLength ∧
    (enforceFiveBarConstraints conf).rockerLength = conf.rockerLength := by
  simp only [enforceFiveBarConstraints]
  split_ifs with h
  · exact ⟨rfl, rfl, rfl⟩
  · refine ⟨?_, ?_, ?_⟩
    · rw [(enforcePull_fixed _).2.1, (enforceGrow_fixed _).2.1]
    · rw [(enforcePull_fixed _).2.2.1, (enforceGrow_fixed _).2.2.1]
    · rw [(enforcePull_fixed _).2.2.2, (enforceGrow_fixed _).2.2.2]

/-- In the grow phase, the repaired total arm meets the 1.15 margin:
if the rod is present and positive, the result has a positive rod `w`
with `coupler + w ≥ 1.15 × (|ground| + |crank| + |rocker|)`. -/
lemma enforceGrow_margin (conf : MechanismConfig) (v : ℝ)
    (hv : conf.rodLength = some v) (hvpos : 0 < v) (hcp : 0 ≤ conf.couplerLength) :
    ∃ w, (enforceFiveBarGrow conf).rodLength = some w ∧ 0 < w ∧
      (|conf.groundLength| + |conf.crankLength| + |conf.rockerLength|) * 1.15 ≤
        (enforceFiveBarGrow conf).couplerLength + w := by
  have hvnz : (v : ℝ) ≠ 0 := ne_of_gt hvpos
  simp only [enforceFiveBarGrow, hv, orD, hvnz, if_false, reduceIte]
  split_ifs with h
  · refine ⟨v + ((|conf.groundLength| + |conf.crankLength| + |conf.rockerLength|) * 1.15 -
      (|conf.couplerLength| + |v|)) / 2, rfl, ?_, ?_⟩
    · rw [abs_of_nonneg hcp, abs_of_pos hvpos] at h ⊢
      linarith
    · rw [abs_of_nonneg hcp, abs_of_pos hvpos] at h ⊢
      linarith
  · rw [abs_of_nonneg hcp, abs_of_pos hvpos] at h
    exact ⟨v, by rw [hv], hvpos, by linarith [not_lt.mp h]⟩

/-- The pull phase preserves the coupler + rod sum when the rod is
present and non-zero. -/
lemma enforcePull_sum (conf : MechanismConfig) (v : ℝ)
    (hv : conf.rodLength = some v) (hvnz : v ≠ 0) :
    ∃ w, (enforceFiveBarPull conf).rodLength = some w ∧
      (enforceFiveBarPull conf).couplerLength + w = conf.couplerLength + v := by
  simp only [enforceFiveBarPull, hv, orD, hvnz, if_false, reduceIte]
  split_ifs with h
  · exact ⟨(v + (conf.couplerLength + v) / 2) / 2, rfl, by ring⟩
  · exact ⟨v, by rw [hv], rfl⟩

/-! ## Claim theorems -/

/-- C7: `getCircleIntersection` returns `none` exactly when the center
distance `d` satisfies `d > r0 + r1 + 0.1`, or `d < |r0 - r1| - 0.1`,
or `d = 0`; in every other case it returns a point. -/
theorem getCircleIntersection_none_iff (p0 : Point) (r0 : ℝ) (p1 : Point) (r1 : ℝ) (flip : Bool) :
    getCircleIntersection p0 r0 p1 r1 flip = none ↔
      (ptDist p0 p1 > r0 + r1 + 0.1 ∨ ptDist p0 p1 < |r0 - r1| - 0.1 ∨ ptDist p0 p1 = 0) := by
  have hd : Real.sqrt ((p1.x - p0.x) * (p1.x - p0.x) + (p1.y - p0.y) * (p1.y - p0.y))
      = ptDist p0 p1 := by
    unfold ptDist sqDist
    congr 1
    ring
  simp only [getCircleIntersection]
  rw [hd]
  split_ifs with h hflip
  · simpa using h
  · simpa using h
  · simpa using h

/-- C10: the crank, Scotch-yoke and quick-return variants have no failure
branch: `calculateLinkage` reports `isValid = true` for every drive angle. -/
theorem alwaysValid_variants (cfg : MechanismConfig) (θ : ℝ)
    (h : cfg.type = MechanismType.crank ∨ cfg.type = MechanismType.yoke ∨
         cfg.type = MechanismType.quickReturn) :
    (calculateLinkage cfg θ).isValid = true := by
  rcases h with h | h | h <;> simp [calculateLinkage, h]

/-- Concrete crank configuration used by witnesses. -/
def crankCfgW : MechanismConfig :=
  { id := "w", type := MechanismType.crank, visible := true, color := "",
    anchorX := some 0, anchorY := some 0, groundAngle := some 0,
    crankLength := 50, groundLength := 0, couplerLength := 0, rockerLength := 0,
    sliderOffset := 0, couplerPointDist := 0, couplerPointAngle := 0,
    speed1 := some 1, speed2 := none, gearRatio := none, rodLength := none,
    phase := none, showOutputGear := none, outputGearRadius := none }

/-- Witness for C10 at a concrete crank configuration and drive angle 0. -/
theorem alwaysValid_variants_witness :
    (crankCfgW.type = MechanismType.crank ∨ crankCfgW.type = MechanismType.yoke ∨
     crankCfgW.type = MechanismType.quickReturn) ∧
    (calculateLinkage crankCfgW 0).isValid = true :=
  ⟨Or.inl rfl, alwaysValid_variants crankCfgW 0 (Or.inl rfl)⟩

/-- The crank tip's coordinate perpendicular to the track, in the local
frame whose origin is the anchor and whose x-axis is the track direction
(the `localJ1y` of the piston branch of `calculateLinkage`). -/
def pistonLocalJ1y (config : MechanismConfig) (crankAngleRad : ℝ) : ℝ :=
  let s1 := config.speed1.getD 1
  let angle1 := crankAngleRad * s1
  let dx := config.crankLength * Real.cos angle1
  let dy := config.crankLength * Real.sin angle1
  let trackAngle := toRad (config.groundAngle.getD 0)
  dx * Real.sin (-trackAngle) + dy * Real.cos (-trackAngle)

/-- C5: a Piston (slider-crank) configuration reports `isValid = false`
exactly when `|sliderOffset - localJ1y| > couplerLength`. -/
theorem piston_invalid_iff (cfg : MechanismConfig) (θ : ℝ)
    (ht : cfg.type = MechanismType.piston) :
    ((calculateLinkage cfg θ).isValid = false ↔
      |cfg.sliderOffset - pistonLocalJ1y cfg θ| > cfg.couplerLength) := by
  have hoff : (if cfg.sliderOffset = 0 then (0 : ℝ) else cfg.sliderOffset) = cfg.sliderOffset := by
    split_ifs with h
    · exact h.symm
    · rfl
  have heq :
      cfg.sliderOffset -
        ((cfg.anchorX.getD 0 + cfg.crankLength * Real.cos (θ * cfg.speed1.getD 1) - cfg.anchorX.getD 0) *
            Real.sin (-toRad (cfg.groundAngle.getD 0)) +
          (cfg.anchorY.getD 0 + cfg.crankLength * Real.sin (θ * cfg.speed1.getD 1) - cfg.anchorY.getD 0) *
            Real.cos (-toRad (cfg.groundAngle.getD 0))) =
      cfg.sliderOffset - pistonLocalJ1y cfg θ := by
    unfold pistonLocalJ1y
    ring
  simp only [calculateLinkage, ht]
  rw [hoff, heq]
  split_ifs with hc
  · simpa using hc
  · simpa using hc

/-- C1 (amended): for a Five-Bar configuration with non-negative length
fields and a present, non-zero rod length, the Constraint Repairer
returns a configuration whose coupler + rod total meets
`1.15 × (groundLength + crankLength + rockerLength)` — also when the
arm-difference pull step fires, since that step preserves the total.
(The amendment adds "non-zero rod length": a rod stored as `0` is read
through the `|| 100` default but written back unchanged.) -/
theorem enforceFiveBar_margin (conf : MechanismConfig)
    (ht : conf.type = MechanismType.fivebar)
    (hg : 0 ≤ conf.groundLength) (hc : 0 ≤ conf.crankLength)
    (hr : 0 ≤ conf.rockerLength) (hcp : 0 ≤ conf.couplerLength)
    (v : ℝ) (hv : conf.rodLength = some v) (hvpos : 0 < v) :
    ∃ w, (enforceFiveBarConstraints conf).rodLength = some w ∧
      1.15 * ((enforceFiveBarConstraints conf).groundLength +
              (enforceFiveBarConstraints conf).crankLength +
              (enforceFiveBarConstraints conf).rockerLength) ≤
        (enforceFiveBarConstraints conf).couplerLength + w := by
  have hstep : enforceFiveBarConstraints conf =
      enforceFiveBarPull (enforceFiveBarGrow conf) := by
    simp [enforceFiveBarConstraints, ht]
  obtain ⟨w1, hw1, hw1pos, hw1sum⟩ := enforceGrow_margin conf v hv hvpos hcp
  obtain ⟨w2, hw2, hw2sum⟩ := enforcePull_sum (enforceFiveBarGrow conf) w1 hw1 (ne_of_gt hw1pos)
  refine ⟨w2, by rw [hstep]; exact hw2, ?_⟩
  rw [hstep]
  have hfix := enforceFiveBar_fixed conf
  rw [hstep] at hfix
  rw [hfix.1, hfix.2.1, hfix.2.2]
  rw [hw2sum]
  rw [abs_of_nonneg hg, abs_of_nonneg hc, abs_of_nonneg hr] at hw1sum
  linarith

/-- Concrete Five-Bar configuration with zero rod length: the repairer
leaves it unchanged and the margin fails (counterexample input for C1). -/
def fiveBarZeroRodW : MechanismConfig :=
  { id := "c1", type := MechanismType.fivebar, visible := true, color := "",
    anchorX := some 0, anchorY := some 0, groundAngle := some 0,
    crankLength := 10, groundLength := 300, couplerLength := 300, rockerLength := 10,
    sliderOffset := 0, couplerPointDist := 0, couplerPointAngle := 0,
    speed1 := some 1, speed2 := some 1, gearRatio := none, rodLength := some 0,
    phase := some 0, showOutputGear := none, outputGearRadius := none }

/-- C1 counterexample: a Five-Bar configuration with all length fields
non-negative (rod length 0) for which the repaired configuration has
`couplerLength + rodLength = 300 < 368 = 1.15 × (ground + crank + rocker)`:
the rod is read through the `|| 100` default, so neither repair step
fires, and the stored rod length stays 0. -/
theorem enforceFiveBar_margin_cex :
    (enforceFiveBarConstraints fiveBarZeroRodW).rodLength = some 0 ∧
    (enforceFiveBarConstraints fiveBarZeroRodW).couplerLength + 0 <
      1.15 * ((enforceFiveBarConstraints fiveBarZeroRodW).groundLength +
              (enforceFiveBarConstraints fiveBarZeroRodW).crankLength +
              (enforceFiveBarConstraints fiveBarZeroRodW).rockerLength) := by
  have h1 : enforceFiveBarGrow fiveBarZeroRodW = fiveBarZeroRodW := by
    simp only [enforceFiveBarGrow, fiveBarZeroRodW, orD]
    norm_num
  have h2 : enforceFiveBarPull fiveBarZeroRodW = fiveBarZeroRodW := by
    simp only [enforceFiveBarPull, fiveBarZeroRodW, orD]
    norm_num
  have h : enforceFiveBarConstraints fiveBarZeroRodW = fiveBarZeroRodW := by
    unfold enforceFiveBarConstraints
    rw [if_neg, h1, h2]
    norm_num [fiveBarZeroRodW]
  rw [h]
  norm_num [fiveBarZeroRodW]

/-- Concrete Five-Bar configuration with a positive rod, for the C1 witness. -/
def fiveBarMarginW : MechanismConfig :=
  { id := "w1", type := MechanismType.fivebar, visible := true, color := "",
    anchorX := some 0, anchorY := some 0, groundAngle := some 0,
    crankLength := 30, groundLength := 100, couplerLength := 50, rockerLength := 30,
    sliderOffset := 0, couplerPointDist := 0, couplerPointAngle := 0,
    speed1 := some 1, speed2 := some 1, gearRatio := none, rodLength := some 20,
    phase := some 0, showOutputGear := none, outputGearRadius := none }

/-- Witness for C1 (amended) at a concrete Five-Bar configuration. -/
theorem enforceFiveBar_margin_witness :
    fiveBarMarginW.type = MechanismType.fivebar ∧
    (0 : ℝ) ≤ fiveBarMarginW.groundLength ∧ (0 : ℝ) ≤ fiveBarMarginW.crankLength ∧
    (0 : ℝ) ≤ fiveBarMarginW.rockerLength ∧ (0 : ℝ) ≤ fiveBarMarginW.couplerLength ∧
    fiveBarMarginW.rodLength = some 20 ∧ (0 : ℝ) < 20 ∧
    (∃ w, (enforceFiveBarConstraints fiveBarMarginW).rodLength = some w ∧
      1.15 * ((enforceFiveBarConstraints fiveBarMarginW).groundLength +
              (enforceFiveBarConstraints fiveBarMarginW).crankLength +
              (enforceFiveBarConstraints fiveBarMarginW).rockerLength) ≤
        (enforceFiveBarConstraints fiveBarMarginW).couplerLength + w) :=
  ⟨rfl, by norm_num [fiveBarMarginW], by norm_num [fiveBarMarginW],
   by norm_num [fiveBarMarginW], by norm_num [fiveBarMarginW], rfl, by norm_num,
   enforceFiveBar_margin fiveBarMarginW rfl (by norm_num [fiveBarMarginW])
     (by norm_num [fiveBarMarginW]) (by norm_num [fiveBarMarginW])
     (by norm_num [fiveBarMarginW]) 20 rfl (by norm_num)⟩

/-- C9 helper: one generation of the evolutionary loop never increases
the tracked global-best score (it is overwritten only on strict
improvement). -/
lemma evolveStep_globalBestScore_le (u : List Point) (f e : Option MechanismType)
    (rands : ℕ → MemberRand) (st : DriverState) :
    (evolveStep u f e rands st).globalBestScore ≤ st.globalBestScore := by
  simp only [evolveStep]
  split_ifs with h
  · simpa using le_of_lt h
  · simp

/-- C9: across the evolutionary loop, the tracked global-best score is
monotonically non-increasing from each generation to the next. -/
theorem runGenerations_globalBest_monotone (u : List Point) (f e : Option MechanismType)
    (oracle : ℕ → ℕ → MemberRand) (init : DriverState) (k : ℕ) :
    (runGenerations u f e oracle init (k + 1)).globalBestScore ≤
      (runGenerations u f e oracle init k).globalBestScore := by
  simp only [runGenerations]
  exact evolveStep_globalBestScore_le _ _ _ _ _

/-- The rod-length states reachable after the mutation clamp: absent,
stored zero (falsy, so skipped by the clamp), or at least 5. -/
def rodOk (c : MechanismConfig) : Prop :=
  c.rodLength = none ∨ c.rodLength = some 0 ∨ ∃ v, c.rodLength = some v ∧ 5 ≤ v

lemma rodOk_orD (c : MechanismConfig) (h : rodOk c) : 5 ≤ orD c.rodLength 100 := by
  rcases h with h | h | ⟨v, hv, h5⟩
  · rw [h]
    norm_num [orD]
  · rw [h]
    norm_num [orD]
  · rw [hv]
    simp only [orD]
    split_ifs with h0
    · norm_num
    · exact h5

lemma enforceGrow_ge5 (conf : MechanismConfig)
    (hcp : 5 ≤ conf.couplerLength) (hrod : rodOk conf) :
    5 ≤ (enforceFiveBarGrow conf).couplerLength ∧ rodOk (enforceFiveBarGrow conf) := by
  have hD : 5 ≤ orD conf.rodLength 100 := rodOk_orD conf hrod
  simp only [enforceFiveBarGrow]
  split_ifs with h
  · constructor
    · dsimp only
      linarith
    · unfold rodOk
      dsimp only
      right; right
      exact ⟨_, rfl, by linarith⟩
  · exact ⟨hcp, hrod⟩

lemma enforcePull_ge5 (conf : MechanismConfig)
    (hcp : 5 ≤ conf.couplerLength) (hrod : rodOk conf) :
    5 ≤ (enforceFiveBarPull conf).couplerLength ∧ rodOk (enforceFiveBarPull conf) := by
  have hD : 5 ≤ orD conf.rodLength 100 := rodOk_orD conf hrod
  simp only [enforceFiveBarPull]
  split_ifs with h
  · constructor
    · dsimp only
      linarith
    · unfold rodOk
      dsimp only
      right; right
      exact ⟨_, rfl, by linarith⟩
  · exact ⟨hcp, hrod⟩

lemma enforceFiveBar_ge5 (conf : MechanismConfig)
    (hg : 5 ≤ conf.groundLength) (hc : 5 ≤ conf.crankLength)
    (hcp : 5 ≤ conf.couplerLength) (hr : 5 ≤ conf.rockerLength)
    (hrod : rodOk conf) :
    5 ≤ (enforceFiveBarConstraints conf).groundLength ∧
    5 ≤ (enforceFiveBarConstraints conf).crankLength ∧
    5 ≤ (enforceFiveBarConstraints conf).couplerLength ∧
    5 ≤ (enforceFiveBarConstraints conf).rockerLength ∧
    rodOk (enforceFiveBarConstraints conf) := by
  unfold enforceFiveBarConstraints
  split_ifs with h
  · exact ⟨hg, hc, hcp, hr, hrod⟩
  · obtain ⟨h1cp, h1rod⟩ := enforceGrow_ge5 conf hcp hrod
    obtain ⟨h2cp, h2rod⟩ := enforcePull_ge5 (enforceFiveBarGrow conf) h1cp h1rod
    refine ⟨?_, ?_, h2cp, ?_, h2rod⟩
    · rw [(enforcePull_fixed _).2.1, (enforceGrow_fixed _).2.1]
      exact hg
    · rw [(enforcePull_fixed _).2.2.1, (enforceGrow_fixed _).2.2.1]
      exact hc
    · rw [(enforcePull_fixed _).2.2.2, (enforceGrow_fixed _).2.2.2]
      exact hr

lemma mutatePost_ge5 (c : MechanismConfig) :
    5 ≤ (mutatePost c).groundLength ∧ 5 ≤ (mutatePost c).crankLength ∧
    5 ≤ (mutatePost c).couplerLength ∧ 5 ≤ (mutatePost c).rockerLength ∧
    rodOk (mutatePost c) := by
  simp only [mutatePost]
  have hrod : rodOk
      { c with
        groundLength := max 5 |c.groundLength|,
        crankLength := max 5 |c.crankLength|,
        couplerLength := max 5 |c.couplerLength|,
        rockerLength := max 5 |c.rockerLength|,
        rodLength :=
          match c.rodLength with
          | none => none
          | some v => if v = 0 then some v else some (max 5 |v|) } := by
    unfold rodOk
    dsimp only
    rcases c.rodLength with _ | v
    · exact Or.inl rfl
    · dsimp only
      split_ifs with h0
      · exact Or.inr (Or.inl (by rw [h0]))
      · exact Or.inr (Or.inr ⟨_, rfl, le_max_left _ _⟩)
  split_ifs with h
  · exact enforceFiveBar_ge5 _ (le_max_left _ _) (le_max_left _ _)
      (le_max_left _ _) (le_max_left _ _) hrod
  · exact ⟨le_max_left _ _, le_max_left _ _, le_max_left _ _, le_max_left _ _, hrod⟩

/-- C2 (amended): `mutateConfig` always returns a configuration whose
ground, crank, coupler and rocker lengths are at least 5, and whose rod
length is at least 5 whenever it is present and non-zero (a zero or
absent rod is falsy in JS and escapes the clamp).  The coupler-point
distance is not clamped at all. -/
theorem mutateConfig_minLengths (cfg : MechanismConfig) (t : ℝ) (ft : Bool)
    (ex : Option MechanismType) (r : MutRand) :
    5 ≤ (mutateConfig cfg t ft ex r).groundLength ∧
    5 ≤ (mutateConfig cfg t ft ex r).crankLength ∧
    5 ≤ (mutateConfig cfg t ft ex r).couplerLength ∧
    5 ≤ (mutateConfig cfg t ft ex r).rockerLength ∧
    rodOk (mutateConfig cfg t ft ex r) := by
  simp only [mutateConfig]
  exact mutatePost_ge5 _

/-- Concrete input configuration for the C2 counterexample: a Four-Bar
with coupler-point distance 0 and a stored rod length of 0. -/
def mutCexCfg : MechanismConfig :=
  { id := "c2", type := MechanismType.fourbar, visible := true, color := "",
    anchorX := some 0, anchorY := some 0, groundAngle := some 0,
    crankLength := 50, groundLength := 50, couplerLength := 50, rockerLength := 50,
    sliderOffset := 0, couplerPointDist := 0, couplerPointAngle := 0,
    speed1 := some 1, speed2 := some 1, gearRatio := none, rodLength := some 0,
    phase := some 0, showOutputGear := none, outputGearRadius := none }

/-- Concrete random draws for the C2 counterexample: every coin is 0.9,
so no mutation branch fires. -/
def mutCexRand : MutRand :=
  { structCoin := 0.9, structIdx := 0, structDirR := 0.9,
    scaleCoin := 0.9, scaleR := 0.9,
    axCoin := 0.9, axR := 0.9, ayCoin := 0.9, ayR := 0.9, gaCoin := 0.9, gaR := 0.9,
    glCoin := 0.9, glR := 0.9, cplCoin := 0.9, cplR := 0.9, rkCoin := 0.9, rkR := 0.9,
    cpdCoin := 0.9, cpdR := 0.9, crCoin := 0.9, crR := 0.9,
    rodCoin := 0.9, rodR := 0.9, phCoin := 0.9, phR := 0.9, spCoin := 0.9, spJitR := 0.9,
    soCoin := 0.9, soR := 0.9, cpaCoin := 0.9, cpaR := 0.9 }

/-- C2 counterexample: at a concrete configuration and concrete draws,
`mutateConfig` returns coupler-point distance 0 (< 5) and rod length 0
(< 5): neither field is clamped to the 5 minimum. -/
theorem mutateConfig_minLengths_cex :
    (mutateConfig mutCexCfg 1 false none mutCexRand).couplerPointDist < 5 ∧
    (mutateConfig mutCexCfg 1 false none mutCexRand).rodLength = some 0 := by
  norm_num [mutateConfig, mutatePost, mutCexCfg, mutCexRand, scaleIf, orD,
    enforceFiveBarConstraints, enforceFiveBarGrow, enforceFiveBarPull]
  simp

/-- A wrapped-index `getD` always returns a member of a non-empty list. -/
lemma getD_mod_mem {α : Type} (l : List α) (hl : l ≠ []) (i : ℕ) (d : α) :
    l.getD (i % l.length) d ∈ l := by
  have hlen : 0 < l.length := List.length_pos.mpr hl
  have hi : i % l.length < l.length := Nat.mod_lt _ hlen
  rw [List.getD_eq_getElem l d hi]
  exact List.getElem_mem hi

/-- The variant selected by the Candidate Generator is exactly the
indexed element of the `availableTypes` list. -/
lemma generateSmartConfig_type (tp : Option (List Point))
    (f e : Option MechanismType) (r : GenRand) :
    (generateSmartConfig tp f e r).type =
      (availTypes f e).getD (r.typeIdx % (availTypes f e).length) MechanismType.fourbar := by
  simp only [generateSmartConfig]
  cases h : (availTypes f e).getD (r.typeIdx % (availTypes f e).length) MechanismType.fourbar <;>
    simp only [h, enforceFiveBar_type]

/-- C3 (amended): the Candidate Generator draws the variant uniformly
(by a uniformly distributed index) from `MECHANISM_TYPES`, which holds
exactly the five variants Four-Bar, Piston, Yoke, Quick-Return and
Five-Bar — the crank variant is not in the pool; an excluded type is
filtered out of that five-element list; a forced type is returned
exactly; and without a forced type the crank variant is never produced. -/
theorem generateSmartConfig_typeUniform :
    (availTypes none none =
      [MechanismType.fourbar, MechanismType.piston, MechanismType.yoke,
       MechanismType.quickReturn, MechanismType.fivebar]) ∧
    (∀ e, availTypes none (some e) = MECHANISM_TYPES.filter (fun t => t ≠ e)) ∧
    (∀ t e, availTypes (some t) e = [t]) ∧
    (∀ tp f e r, (generateSmartConfig tp f e r).type =
      (availTypes f e).getD (r.typeIdx % (availTypes f e).length) MechanismType.fourbar) ∧
    (∀ tp t e r, (generateSmartConfig tp (some t) e r).type = t) ∧
    (∀ tp e r, (generateSmartConfig tp none e r).type ≠ MechanismType.crank) := by
  refine ⟨rfl, fun e => rfl, fun t e => rfl, generateSmartConfig_type, ?_, ?_⟩
  · intro tp t e r
    rw [generateSmartConfig_type]
    simp [availTypes, Nat.mod_one]
  · intro tp e r
    rw [generateSmartConfig_type]
    intro hcrank
    have hne : availTypes none e ≠ [] := by
      cases e with
      | none => simp [availTypes, MECHANISM_TYPES]
      | some e0 => cases e0 <;> decide
    have hmem := getD_mod_mem (availTypes none e) hne r.typeIdx MechanismType.fourbar
    rw [hcrank] at hmem
    cases e with
    | none =>
        simp [availTypes, MECHANISM_TYPES] at hmem
    | some e0 =>
        simp only [availTypes, List.mem_filter] at hmem
        have : MechanismType.crank ∈ MECHANISM_TYPES := hmem.1
        simp [MECHANISM_TYPES] at this

/-- C3 counterexample: the claim that the crank variant can be drawn
(with neither a forced nor an excluded type) is false — no random draw
makes the Candidate Generator return a crank, because `MECHANISM_TYPES`
holds only the other five variants. -/
theorem generateSmartConfig_crank_unreachable :
    (∃ (tp : Option (List Point)) (r : GenRand),
        (generateSmartConfig tp none none r).type = MechanismType.crank) = False := by
  refine eq_false ?_
  rintro ⟨tp, r, h⟩
  rw [generateSmartConfig_type] at h
  have hne : availTypes none none ≠ [] := by
    simp [availTypes, MECHANISM_TYPES]
  have hmem := getD_mod_mem (availTypes none none) hne r.typeIdx MechanismType.fourbar
  rw [h] at hmem
  simp [availTypes, MECHANISM_TYPES] at hmem

lemma filter_map_range_le (k : ℕ) (F : ℕ → JointState) :
    (((List.range k).map F).filter (fun st => st.isValid)).length ≤ k := by
  refine le_trans (List.length_filter_le _ _) ?_
  rw [List.length_map, List.length_range]

/-- The valid fraction reported by the curve sampler lies in `[0, 1]`. -/
lemma percentValid_bounds (cfg : MechanismConfig) (n : ℕ) :
    0 ≤ (generateCurvePoints cfg n).percentValid ∧
      (generateCurvePoints cfg n).percentValid ≤ 1 := by
  simp only [generateCurvePoints]
  constructor
  · positivity
  · set m := n * (if cfg.type = MechanismType.fivebar then 8 else 1) with hm
    have hle := filter_map_range_le m
      (fun i => calculateLinkage cfg ((i : ℝ) / (n : ℝ) * 2 * Real.pi))
    rcases Nat.eq_zero_or_pos m with h0 | hpos
    · rw [h0]
      norm_num
    · exact div_le_one_of_le (by exact_mod_cast hle) (by positivity)

lemma sqDist_nonneg (p q : Point) : 0 ≤ sqDist p q := by
  unfold sqDist
  positivity

lemma minSqDist_nonneg (p : Point) (l : List Point) : 0 ≤ minSqDist p l := by
  cases l with
  | nil => exact le_refl 0
  | cons q qs =>
      simp only [minSqDist]
      have key : ∀ (l' : List Point) (a : ℝ), 0 ≤ a →
          0 ≤ l'.foldl (fun m r => min m (sqDist p r)) a := by
        intro l'
        induction l' with
        | nil => intro a ha; simpa using ha
        | cons x xs ih =>
            intro a ha
            exact ih _ (le_min ha (sqDist_nonneg p x))
      exact key qs _ (sqDist_nonneg p q)

lemma sum_minSqDist_nonneg (l tgt : List Point) :
    0 ≤ (l.map (fun p => minSqDist p tgt)).sum := by
  apply List.sum_nonneg
  intro x hx
  obtain ⟨p, _, rfl⟩ := List.mem_map.mp hx
  exact minSqDist_nonneg p tgt

/-- C4: `evaluateFitness` is non-negative for every configuration and
(non-empty) target path, and whenever the sampled valid fraction is
below 1 it returns exactly `1e9 + (1 - validFraction) * 1e9 ≥ 1e9`.
The non-emptiness hypothesis marks the domain on which the JS code is
numerically meaningful (an empty target divides by zero). -/
theorem evaluateFitness_nonneg_and_penalty (cfg : MechanismConfig) (tp : List Point)
    (htp : tp ≠ []) :
    0 ≤ evaluateFitness cfg tp ∧
    ((generateCurvePoints cfg (if cfg.type = MechanismType.fivebar then 120 else 60)).percentValid < 1 →
      evaluateFitness cfg tp =
        1e9 + (1.0 - (generateCurvePoints cfg
          (if cfg.type = MechanismType.fivebar then 120 else 60)).percentValid) * 1e9 ∧
      (1e9 : ℝ) ≤ evaluateFitness cfg tp) := by
  by_cases hty : cfg.type = MechanismType.fivebar
  · obtain ⟨hpv0, hpv1⟩ := percentValid_bounds cfg 120
    rw [if_pos hty] at *
    simp only [evaluateFitness, hty, reduceIte]
    split_ifs with h1 h2
    · exact ⟨by linarith, fun _ => ⟨rfl, by linarith⟩⟩
    · exact ⟨by norm_num, fun hlt => absurd hlt h1⟩
    · refine ⟨?_, fun hlt => absurd hlt h1⟩
      refine add_nonneg (add_nonneg ?_ ?_) ?_
      · exact div_nonneg (sum_minSqDist_nonneg _ _) (by positivity)
      · exact div_nonneg (sum_minSqDist_nonneg _ _) (by positivity)
      · cases hpt : (generateCurvePoints cfg 120).points with
        | nil => norm_num
        | cons p ps =>
            dsimp only
            split_ifs with hgap
            · linarith
            · exact le_refl 0
  · obtain ⟨hpv0, hpv1⟩ := percentValid_bounds cfg 60
    rw [if_neg hty] at *
    simp only [evaluateFitness, if_neg hty]
    split_ifs with h1 h2
    · exact ⟨by linarith, fun _ => ⟨rfl, by linarith⟩⟩
    · exact ⟨by norm_num, fun hlt => absurd hlt h1⟩
    · refine ⟨?_, fun hlt => absurd hlt h1⟩
      refine add_nonneg (add_nonneg ?_ ?_) ?_
      · exact div_nonneg (sum_minSqDist_nonneg _ _) (by positivity)
      · exact div_nonneg (sum_minSqDist_nonneg _ _) (by positivity)
      · exact le_refl 0

/-- Witness for C4 at a concrete configuration and one-point target path. -/
theorem evaluateFitness_nonneg_witness :
    ([(⟨0, 0⟩ : Point)] ≠ ([] : List Point)) ∧
    (0 ≤ evaluateFitness crankCfgW [⟨0, 0⟩] ∧
    ((generateCurvePoints crankCfgW
        (if crankCfgW.type = MechanismType.fivebar then 120 else 60)).percentValid < 1 →
      evaluateFitness crankCfgW [⟨0, 0⟩] =
        1e9 + (1.0 - (generateCurvePoints crankCfgW
          (if crankCfgW.type = MechanismType.fivebar then 120 else 60)).percentValid) * 1e9 ∧
      (1e9 : ℝ) ≤ evaluateFitness crankCfgW [⟨0, 0⟩])) :=
  ⟨by simp, evaluateFitness_nonneg_and_penalty crankCfgW [⟨0, 0⟩] (by simp)⟩

/-! ## Circle-intersection geometry (shared by C6 and C8) -/

lemma getCircleIntersection_some_exact (p0 : Point) (r0 : ℝ) (p1 : Point) (r1 : ℝ)
    (flip : Bool) (q : Point)
    (hq : getCircleIntersection p0 r0 p1 r1 flip = some q)
    (h0 : 0 ≤ r0) (h1 : 0 ≤ r1)
    (hlow : |r0 - r1| ≤ ptDist p0 p1) (hhigh : ptDist p0 p1 ≤ r0 + r1) :
    sqDist p0 q = r0 ^ 2 ∧ sqDist p1 q = r1 ^ 2 := by
  simp only [getCircleIntersection] at hq
  by_cases hcond : Real.sqrt ((p1.x - p0.x) * (p1.x - p0.x) + (p1.y - p0.y) * (p1.y - p0.y)) >
      r0 + r1 + 0.1 ∨
      Real.sqrt ((p1.x - p0.x) * (p1.x - p0.x) + (p1.y - p0.y) * (p1.y - p0.y)) <
        |r0 - r1| - 0.1 ∨
      Real.sqrt ((p1.x - p0.x) * (p1.x - p0.x) + (p1.y - p0.y) * (p1.y - p0.y)) = 0
  · rw [if_pos hcond] at hq
    exact absurd hq (by simp)
  · rw [if_neg hcond] at hq
    push_neg at hcond
    obtain ⟨-, -, hd0⟩ := hcond
    set dx := p1.x - p0.x with hdx
    set dy := p1.y - p0.y with hdy
    set d := Real.sqrt (dx * dx + dy * dy) with hdd
    have hds : ptDist p0 p1 = d := by
      unfold ptDist sqDist
      rw [hdd]
      congr 1
      rw [hdx, hdy]
      ring
    rw [hds] at hlow hhigh
    have hdnn : 0 ≤ d := Real.sqrt_nonneg _
    have hdpos : 0 < d := lt_of_le_of_ne hdnn (Ne.symm hd0)
    have hd2 : d ^ 2 = dx * dx + dy * dy := by
      rw [hdd]
      exact Real.sq_sqrt (add_nonneg (mul_self_nonneg dx) (mul_self_nonneg dy))
    set a := (r0 * r0 - r1 * r1 + d * d) / (2 * d) with haa
    have ha : a * (2 * d) = r0 * r0 - r1 * r1 + d * d := by
      rw [haa]
      field_simp
    have hl1 : r0 - r1 ≤ d := le_trans (le_abs_self _) hlow
    have hl2 : r1 - r0 ≤ d := le_trans (by rw [abs_sub_comm]; exact le_abs_self _) hlow
    have f1 : 0 ≤ d + r1 - r0 := by linarith
    have f2 : 0 ≤ r0 + r1 - d := by linarith
    have f3 : 0 ≤ d + r0 - r1 := by linarith
    have f4 : 0 ≤ d + r0 + r1 := by linarith
    have hprod : 0 ≤ ((d + r1 - r0) * (r0 + r1 - d)) * ((d + r0 - r1) * (d + r0 + r1)) :=
      mul_nonneg (mul_nonneg f1 f2) (mul_nonneg f3 f4)
    have hident : (r0 * r0 - a * a) * (4 * (d * d)) =
        ((d + r1 - r0) * (r0 + r1 - d)) * ((d + r0 - r1) * (d + r0 + r1)) := by
      linear_combination (-(r0 * r0 - r1 * r1 + d * d) - a * (2 * d)) * ha
    have h4 : (0 : ℝ) < 4 * (d * d) := by positivity
    have hkey : 0 ≤ r0 * r0 - a * a := by
      nlinarith [hident, hprod, h4]
    have hmax : max 0 (r0 * r0 - a * a) = r0 * r0 - a * a := max_eq_right hkey
    rw [hmax] at hq
    set h := Real.sqrt (r0 * r0 - a * a) with hhh
    have hh2 : h ^ 2 = r0 * r0 - a * a := by
      rw [hhh]
      exact Real.sq_sqrt hkey
    clear_value dx dy d a h
    have hp1x : p1.x = p0.x + dx := by
      rw [hdx]
      ring
    have hp1y : p1.y = p0.y + dy := by
      rw [hdy]
      ring
    have key1 : ∀ s : ℝ, s * s = 1 →
        (dx * a + s * (h * dy)) ^ 2 + (dy * a - s * (h * dx)) ^ 2 = r0 ^ 2 * d ^ 2 := by
      intro s hs
      linear_combination (d ^ 2) * hh2 + (h ^ 2 * d ^ 2) * hs - (a ^ 2 + s * s * h ^ 2) * hd2
    have key2 : ∀ s : ℝ, s * s = 1 →
        (dx * a + s * (h * dy) - d * dx) ^ 2 + (dy * a - s * (h * dx) - d * dy) ^ 2 =
          r1 ^ 2 * d ^ 2 := by
      intro s hs
      have k1 := key1 s hs
      linear_combination k1 - (d ^ 2 - 2 * a * d) * hd2 - (d ^ 2) * ha
    cases flip with
    | false =>
        rw [if_neg (by simp)] at hq
        obtain rfl := (Option.some.injEq _ _).mp hq
        constructor
        · unfold sqDist
          dsimp only
          field_simp
          linear_combination key1 1 (by norm_num)
        · unfold sqDist
          dsimp only
          rw [hp1x, hp1y]
          field_simp
          linear_combination key2 1 (by norm_num)
    | true =>
        rw [if_pos rfl] at hq
        obtain rfl := (Option.some.injEq _ _).mp hq
        constructor
        · unfold sqDist
          dsimp only
          field_simp
          linear_combination key1 (-1) (by norm_num)
        · unfold sqDist
          dsimp only
          rw [hp1x, hp1y]
          field_simp
          linear_combination key2 (-1) (by norm_num)

lemma getCircleIntersection_some_dist (p0 : Point) (r0 : ℝ) (p1 : Point) (r1 : ℝ)
    (flip : Bool) (q : Point)
    (hq : getCircleIntersection p0 r0 p1 r1 flip = some q)
    (h0 : 0 ≤ r0) (h1 : 0 ≤ r1)
    (hlow : |r0 - r1| ≤ ptDist p0 p1) (hhigh : ptDist p0 p1 ≤ r0 + r1) :
    ptDist p0 q = r0 ∧ ptDist p1 q = r1 := by
  obtain ⟨e0, e1⟩ := getCircleIntersection_some_exact p0 r0 p1 r1 flip q hq h0 h1 hlow hhigh
  constructor
  · unfold ptDist
    rw [e0]
    exact Real.sqrt_sq h0
  · unfold ptDist
    rw [e1]
    exact Real.sqrt_sq h1

lemma getCircleIntersection_flip_ne (p0 : Point) (r0 : ℝ) (p1 : Point) (r1 : ℝ)
    (qf qt : Point)
    (hf : getCircleIntersection p0 r0 p1 r1 false = some qf)
    (ht : getCircleIntersection p0 r0 p1 r1 true = some qt)
    (h0 : 0 ≤ r0) (h1 : 0 ≤ r1)
    (hlow : |r0 - r1| < ptDist p0 p1) (hhigh : ptDist p0 p1 < r0 + r1) :
    qf ≠ qt := by
  simp only [getCircleIntersection] at hf ht
  by_cases hcond : Real.sqrt ((p1.x - p0.x) * (p1.x - p0.x) + (p1.y - p0.y) * (p1.y - p0.y)) >
      r0 + r1 + 0.1 ∨
      Real.sqrt ((p1.x - p0.x) * (p1.x - p0.x) + (p1.y - p0.y) * (p1.y - p0.y)) <
        |r0 - r1| - 0.1 ∨
      Real.sqrt ((p1.x - p0.x) * (p1.x - p0.x) + (p1.y - p0.y) * (p1.y - p0.y)) = 0
  · rw [if_pos hcond] at hf
    exact absurd hf (by simp)
  · rw [if_neg hcond] at hf ht
    push_neg at hcond
    obtain ⟨-, -, hd0⟩ := hcond
    set dx := p1.x - p0.x with hdx
    set dy := p1.y - p0.y with hdy
    set d := Real.sqrt (dx * dx + dy * dy) with hdd
    have hds : ptDist p0 p1 = d := by
      unfold ptDist sqDist
      rw [hdd]
      congr 1
      rw [hdx, hdy]
      ring
    rw [hds] at hlow hhigh
    have hdnn : 0 ≤ d := Real.sqrt_nonneg _
    have hdpos : 0 < d := lt_of_le_of_ne hdnn (Ne.symm hd0)
    set a := (r0 * r0 - r1 * r1 + d * d) / (2 * d) with haa
    have ha : a * (2 * d) = r0 * r0 - r1 * r1 + d * d := by
      rw [haa]
      field_simp
    have hl1 : r0 - r1 ≤ |r0 - r1| := le_abs_self _
    have hl2 : r1 - r0 ≤ |r0 - r1| := by
      rw [abs_sub_comm]
      exact le_abs_self _
    have f1 : 0 < d + r1 - r0 := by linarith
    have f2 : 0 < r0 + r1 - d := by linarith
    have f3 : 0 < d + r0 - r1 := by linarith
    have f4 : 0 < d + r0 + r1 := by linarith
    have hprod : 0 < ((d + r1 - r0) * (r0 + r1 - d)) * ((d + r0 - r1) * (d + r0 + r1)) :=
      mul_pos (mul_pos f1 f2) (mul_pos f3 f4)
    have hident : (r0 * r0 - a * a) * (4 * (d * d)) =
        ((d + r1 - r0) * (r0 + r1 - d)) * ((d + r0 - r1) * (d + r0 + r1)) := by
      linear_combination (-(r0 * r0 - r1 * r1 + d * d) - a * (2 * d)) * ha
    have h4 : (0 : ℝ) < 4 * (d * d) := by positivity
    have hkeypos : 0 < r0 * r0 - a * a := by
      nlinarith [hident, hprod, h4]
    have hmax : max 0 (r0 * r0 - a * a) = r0 * r0 - a * a :=
      max_eq_right (le_of_lt hkeypos)
    rw [hmax] at hf ht
    set h := Real.sqrt (r0 * r0 - a * a) with hhh
    have hhpos : 0 < h := by
      rw [hhh]
      exact Real.sqrt_pos.mpr hkeypos
    obtain rfl := (Option.some.injEq _ _).mp hf
    obtain rfl := (Option.some.injEq _ _).mp ht
    intro heq
    have hx := congrArg Point.x heq
    have hy := congrArg Point.y heq
    dsimp only at hx hy
    have hdyz : dy = 0 := by
      have h2 : h * dy / d = 0 := by linarith
      have h3 : h * dy = 0 := by
        field_simp at h2
        tauto
      rcases mul_eq_zero.mp h3 with h5 | h5
      · exact absurd h5 (ne_of_gt hhpos)
      · exact h5
    have hdxz : dx = 0 := by
      have h2 : h * dx / d = 0 := by linarith
      have h3 : h * dx = 0 := by
        field_simp at h2
        tauto
      rcases mul_eq_zero.mp h3 with h5 | h5
      · exact absurd h5 (ne_of_gt hhpos)
      · exact h5
    apply hd0
    rw [hdd, hdxz, hdyz]
    simp

/-- Distance between two points on a horizontal line. -/
lemma ptDist_horiz (x1 x2 y : ℝ) (h : x1 ≤ x2) :
    ptDist ⟨x1, y⟩ ⟨x2, y⟩ = x2 - x1 := by
  unfold ptDist sqDist
  dsimp only
  rw [show (x1 - x2) ^ 2 + (y - y) ^ 2 = (x2 - x1) ^ 2 by ring]
  exact Real.sqrt_sq (by linarith)

/-- C8 (amended): for genuinely intersecting circles
(`|r0 - r1| ≤ d ≤ r0 + r1` with non-negative radii), both flip results
of `getCircleIntersection` lie at distance exactly `r0` from center 0
and `r1` from center 1 (hence within the 0.1 tolerance), and when the
circles intersect strictly (non-tangentially) the two flip results are
distinct.  (The amendment restricts to genuine intersections: inside
the 0.1 acceptance slack the returned point can miss the radii by more
than 0.1, see the counterexample.) -/
theorem circleIntersection_symm_exact (p0 : Point) (r0 : ℝ) (p1 : Point) (r1 : ℝ)
    (h0 : 0 ≤ r0) (h1 : 0 ≤ r1)
    (hlow : |r0 - r1| ≤ ptDist p0 p1) (hhigh : ptDist p0 p1 ≤ r0 + r1) :
    (∀ (b : Bool) (q : Point), getCircleIntersection p0 r0 p1 r1 b = some q →
      |ptDist p0 q - r0| ≤ 0.1 ∧ |ptDist p1 q - r1| ≤ 0.1) ∧
    (|r0 - r1| < ptDist p0 p1 → ptDist p0 p1 < r0 + r1 →
      ∀ qf qt : Point, getCircleIntersection p0 r0 p1 r1 false = some qf →
        getCircleIntersection p0 r0 p1 r1 true = some qt → qf ≠ qt) := by
  constructor
  · intro b q hq
    obtain ⟨e0, e1⟩ := getCircleIntersection_some_dist p0 r0 p1 r1 b q hq h0 h1 hlow hhigh
    rw [e0, e1]
    norm_num
  · intro hl hh qf qt hf htq
    exact getCircleIntersection_flip_ne p0 r0 p1 r1 qf qt hf htq h0 h1 hl hh

/-- Witness for C8 (amended) on two concrete circles of radius 5 whose
centers are 6 apart. -/
theorem circleIntersection_symm_exact_witness :
    ((0 : ℝ) ≤ 5 ∧ (0 : ℝ) ≤ 5 ∧
      |(5 : ℝ) - 5| ≤ ptDist ⟨0, 0⟩ ⟨6, 0⟩ ∧ ptDist ⟨0, 0⟩ ⟨6, 0⟩ ≤ 5 + 5) ∧
    ((∀ (b : Bool) (q : Point), getCircleIntersection ⟨0, 0⟩ 5 ⟨6, 0⟩ 5 b = some q →
      |ptDist ⟨0, 0⟩ q - 5| ≤ 0.1 ∧ |ptDist ⟨6, 0⟩ q - 5| ≤ 0.1) ∧
    (|(5 : ℝ) - 5| < ptDist ⟨0, 0⟩ ⟨6, 0⟩ → ptDist ⟨0, 0⟩ ⟨6, 0⟩ < 5 + 5 →
      ∀ qf qt : Point, getCircleIntersection ⟨0, 0⟩ 5 ⟨6, 0⟩ 5 false = some qf →
        getCircleIntersection ⟨0, 0⟩ 5 ⟨6, 0⟩ 5 true = some qt → qf ≠ qt)) := by
  have hpd : ptDist ⟨0, 0⟩ ⟨6, 0⟩ = 6 := by
    rw [ptDist_horiz 0 6 0 (by norm_num)]
    norm_num
  exact ⟨⟨by norm_num, by norm_num, by rw [hpd]; norm_num, by rw [hpd]; norm_num⟩,
    circleIntersection_symm_exact ⟨0, 0⟩ 5 ⟨6, 0⟩ 5 (by norm_num) (by norm_num)
      (by rw [hpd]; norm_num) (by rw [hpd]; norm_num)⟩

/-- C8 counterexample: circles of radii 100 and 50 whose centers are
49.9 apart (accepted thanks to the 0.1 slack at the nested boundary):
the returned point lies at distance 999001/9980 ≈ 100.1003 from
center 0, missing `r0 = 100` by more than the 0.1 tolerance. -/
theorem circleIntersection_tolerance_cex :
    getCircleIntersection ⟨0, 0⟩ 100 ⟨499 / 10, 0⟩ 50 false = some ⟨999001 / 9980, 0⟩ ∧
    ¬ |ptDist ⟨0, 0⟩ ⟨999001 / 9980, 0⟩ - 100| ≤ 0.1 := by
  constructor
  · simp only [getCircleIntersection]
    have harg : ((⟨499 / 10, 0⟩ : Point).x - (⟨0, 0⟩ : Point).x) *
        ((⟨499 / 10, 0⟩ : Point).x - (⟨0, 0⟩ : Point).x) +
        ((⟨499 / 10, 0⟩ : Point).y - (⟨0, 0⟩ : Point).y) *
        ((⟨499 / 10, 0⟩ : Point).y - (⟨0, 0⟩ : Point).y) = (499 / 10) ^ 2 := by
      norm_num
    rw [harg, Real.sqrt_sq (by norm_num : (0 : ℝ) ≤ 499 / 10)]
    rw [if_neg]
    · have ha : (100 * 100 - 50 * 50 + (499 / 10 : ℝ) * (499 / 10)) / (2 * (499 / 10)) =
          999001 / 9980 := by
        norm_num
      rw [ha]
      have hmax0 : max 0 (100 * 100 - (999001 / 9980 : ℝ) * (999001 / 9980)) = 0 := by
        rw [max_eq_left]
        nlinarith
      rw [hmax0, Real.sqrt_zero]
      norm_num
    · rw [show |(100 : ℝ) - 50| = 50 by norm_num]
      push_neg
      norm_num
  · have hpd : ptDist ⟨0, 0⟩ ⟨999001 / 9980, 0⟩ = 999001 / 9980 := by
      rw [ptDist_horiz 0 (999001 / 9980) 0 (by norm_num)]
      norm_num
    rw [hpd]
    rw [show |(999001 / 9980 : ℝ) - 100| = 1001 / 9980 by rw [abs_of_pos] <;> norm_num]
    norm_num

/-- C6 (amended): for a Four-Bar configuration with non-negative coupler
and rocker lengths whose two joint circles genuinely intersect
(`|coupler - rocker| ≤ dist(J1, P2) ≤ coupler + rocker`), a valid solve
returns J2 with `dist(J1, J2) = couplerLength` and
`dist(P2, J2) = rockerLength` exactly, hence within the 0.1 tolerance.
(The amendment adds the genuine-intersection bound: inside the 0.1
acceptance slack of `getCircleIntersection` the reconstructed distances
can miss the link lengths by more than 0.1, see the counterexample.) -/
theorem fourbar_valid_lengths (cfg : MechanismConfig) (θ : ℝ)
    (ht : cfg.type = MechanismType.fourbar)
    (hc : 0 ≤ cfg.couplerLength) (hr : 0 ≤ cfg.rockerLength)
    (hlow : |cfg.couplerLength - cfg.rockerLength| ≤
      ptDist (calculateLinkage cfg θ).j1 (calculateLinkage cfg θ).p2)
    (hhigh : ptDist (calculateLinkage cfg θ).j1 (calculateLinkage cfg θ).p2 ≤
      cfg.couplerLength + cfg.rockerLength)
    (hv : (calculateLinkage cfg θ).isValid = true) :
    |ptDist (calculateLinkage cfg θ).j1 (calculateLinkage cfg θ).j2 - cfg.couplerLength| ≤ 0.1 ∧
    |ptDist (calculateLinkage cfg θ).p2 (calculateLinkage cfg θ).j2 - cfg.rockerLength| ≤ 0.1 := by
  simp only [calculateLinkage, ht] at hlow hhigh hv ⊢
  cases hI : getCircleIntersection
      ⟨cfg.anchorX.getD 0 + cfg.crankLength * Real.cos (θ * cfg.speed1.getD 1),
       cfg.anchorY.getD 0 + cfg.crankLength * Real.sin (θ * cfg.speed1.getD 1)⟩
      cfg.couplerLength
      ⟨cfg.anchorX.getD 0 + cfg.groundLength * Real.cos (toRad (cfg.groundAngle.getD 0)),
       cfg.anchorY.getD 0 + cfg.groundLength * Real.sin (toRad (cfg.groundAngle.getD 0))⟩
      cfg.rockerLength false with
  | none =>
      rw [hI] at hv
      simp at hv
  | some j2 =>
      simp only [hI] at hlow hhigh ⊢
      obtain ⟨e0, e1⟩ := getCircleIntersection_some_dist _ _ _ _ false j2 hI hc hr hlow hhigh
      rw [e0, e1]
      norm_num

/-- Concrete Four-Bar configuration for the C6 witness: crank 50,
ground 150, coupler 60, rocker 40 (tangent circles at drive angle 0). -/
def fourbarW : MechanismConfig :=
  { id := "w6", type := MechanismType.fourbar, visible := true, color := "",
    anchorX := some 0, anchorY := some 0, groundAngle := some 0,
    crankLength := 50, groundLength := 150, couplerLength := 60, rockerLength := 40,
    sliderOffset := 0, couplerPointDist := 0, couplerPointAngle := 0,
    speed1 := some 1, speed2 := some 1, gearRatio := none, rodLength := some 100,
    phase := some 0, showOutputGear := none, outputGearRadius := none }

lemma fourbarW_intersection :
    getCircleIntersection ⟨50, 0⟩ 60 ⟨150, 0⟩ 40 false = some ⟨110, 0⟩ := by
  simp only [getCircleIntersection]
  have harg : ((⟨150, 0⟩ : Point).x - (⟨50, 0⟩ : Point).x) *
      ((⟨150, 0⟩ : Point).x - (⟨50, 0⟩ : Point).x) +
      ((⟨150, 0⟩ : Point).y - (⟨50, 0⟩ : Point).y) *
      ((⟨150, 0⟩ : Point).y - (⟨50, 0⟩ : Point).y) = (100 : ℝ) ^ 2 := by
    norm_num
  rw [harg, Real.sqrt_sq (by norm_num : (0 : ℝ) ≤ 100)]
  rw [if_neg]
  · have ha : ((60 : ℝ) * 60 - 40 * 40 + 100 * 100) / (2 * 100) = 60 := by
      norm_num
    rw [ha]
    rw [show max (0 : ℝ) (60 * 60 - 60 * 60) = 0 by norm_num, Real.sqrt_zero]
    norm_num
  · rw [show |(60 : ℝ) - 40| = 20 by norm_num]
    push_neg
    norm_num

lemma fourbarW_state :
    (calculateLinkage fourbarW 0).isValid = true ∧
    (calculateLinkage fourbarW 0).j1 = ⟨50, 0⟩ ∧
    (calculateLinkage fourbarW 0).p2 = ⟨150, 0⟩ ∧
    (calculateLinkage fourbarW 0).j2 = ⟨110, 0⟩ := by
  simp only [calculateLinkage]
  norm_num [fourbarW, toRad]
  rw [fourbarW_intersection]
  norm_num

/-- Witness for C6 (amended) at a concrete Four-Bar configuration and
drive angle 0. -/
theorem fourbar_valid_lengths_witness :
    (fourbarW.type = MechanismType.fourbar ∧
     (0 : ℝ) ≤ fourbarW.couplerLength ∧ (0 : ℝ) ≤ fourbarW.rockerLength ∧
     |fourbarW.couplerLength - fourbarW.rockerLength| ≤
       ptDist (calculateLinkage fourbarW 0).j1 (calculateLinkage fourbarW 0).p2 ∧
     ptDist (calculateLinkage fourbarW 0).j1 (calculateLinkage fourbarW 0).p2 ≤
       fourbarW.couplerLength + fourbarW.rockerLength ∧
     (calculateLinkage fourbarW 0).isValid = true) ∧
    (|ptDist (calculateLinkage fourbarW 0).j1 (calculateLinkage fourbarW 0).j2 -
        fourbarW.couplerLength| ≤ 0.1 ∧
     |ptDist (calculateLinkage fourbarW 0).p2 (calculateLinkage fourbarW 0).j2 -
        fourbarW.rockerLength| ≤ 0.1) := by
  obtain ⟨hv, hj1, hp2, hj2⟩ := fourbarW_state
  have hpd : ptDist (calculateLinkage fourbarW 0).j1 (calculateLinkage fourbarW 0).p2 = 100 := by
    rw [hj1, hp2, ptDist_horiz 50 150 0 (by norm_num)]
    norm_num
  have hlow : |fourbarW.couplerLength - fourbarW.rockerLength| ≤
      ptDist (calculateLinkage fourbarW 0).j1 (calculateLinkage fourbarW 0).p2 := by
    rw [hpd]
    norm_num [fourbarW]
  have hhigh : ptDist (calculateLinkage fourbarW 0).j1 (calculateLinkage fourbarW 0).p2 ≤
      fourbarW.couplerLength + fourbarW.rockerLength := by
    rw [hpd]
    norm_num [fourbarW]
  exact ⟨⟨rfl, by norm_num [fourbarW], by norm_num [fourbarW], hlow, hhigh, hv⟩,
    fourbar_valid_lengths fourbarW 0 rfl (by norm_num [fourbarW]) (by norm_num [fourbarW])
      hlow hhigh hv⟩

/-- Concrete Four-Bar configuration at the nested acceptance boundary
for the C6 counterexample: crank 50, ground 99.9, coupler 100,
rocker 50, so at drive angle 0 the circle centers are 49.9 apart. -/
def fourbarCexCfg : MechanismConfig :=
  { id := "c6", type := MechanismType.fourbar, visible := true, color := "",
    anchorX := some 0, anchorY := some 0, groundAngle := some 0,
    crankLength := 50, groundLength := 999 / 10, couplerLength := 100, rockerLength := 50,
    sliderOffset := 0, couplerPointDist := 0, couplerPointAngle := 0,
    speed1 := some 1, speed2 := some 1, gearRatio := none, rodLength := some 100,
    phase := some 0, showOutputGear := none, outputGearRadius := none }

lemma fourbarCex_intersection :
    getCircleIntersection ⟨50, 0⟩ 100 ⟨999 / 10, 0⟩ 50 false = some ⟨1498001 / 9980, 0⟩ := by
  simp only [getCircleIntersection]
  have harg : ((⟨999 / 10, 0⟩ : Point).x - (⟨50, 0⟩ : Point).x) *
      ((⟨999 / 10, 0⟩ : Point).x - (⟨50, 0⟩ : Point).x) +
      ((⟨999 / 10, 0⟩ : Point).y - (⟨50, 0⟩ : Point).y) *
      ((⟨999 / 10, 0⟩ : Point).y - (⟨50, 0⟩ : Point).y) = ((499 : ℝ) / 10) ^ 2 := by
    norm_num
  rw [harg, Real.sqrt_sq (by norm_num : (0 : ℝ) ≤ 499 / 10)]
  rw [if_neg]
  · have ha : ((100 : ℝ) * 100 - 50 * 50 + 499 / 10 * (499 / 10)) / (2 * (499 / 10)) =
        999001 / 9980 := by
      norm_num
    rw [ha]
    rw [show max (0 : ℝ) (100 * 100 - 999001 / 9980 * (999001 / 9980)) = 0 by
      rw [max_eq_left]; nlinarith]
    rw [Real.sqrt_zero]
    norm_num
  · rw [show |(100 : ℝ) - 50| = 50 by norm_num]
    push_neg
    norm_num

lemma fourbarCex_state :
    (calculateLinkage fourbarCexCfg 0).isValid = true ∧
    (calculateLinkage fourbarCexCfg 0).j1 = ⟨50, 0⟩ ∧
    (calculateLinkage fourbarCexCfg 0).j2 = ⟨1498001 / 9980, 0⟩ := by
  simp only [calculateLinkage]
  norm_num [fourbarCexCfg, toRad]
  rw [fourbarCex_intersection]
  norm_num

/-- C6 counterexample: a Four-Bar configuration that solves as valid at
drive angle 0 (the centers are 49.9 apart, exactly at the nested
acceptance boundary `|100 - 50| - 0.1`), yet the reconstructed distance
`dist(J1, J2) = 999001/9980 ≈ 100.1003` misses `couplerLength = 100` by
more than the 0.1 tolerance. -/
theorem fourbar_tolerance_cex :
    (calculateLinkage fourbarCexCfg 0).isValid = true ∧
    ¬ |ptDist (calculateLinkage fourbarCexCfg 0).j1 (calculateLinkage fourbarCexCfg 0).j2 -
        fourbarCexCfg.couplerLength| ≤ 0.1 := by
  obtain ⟨hv, hj1, hj2⟩ := fourbarCex_state
  refine ⟨hv, ?_⟩
  rw [hj1, hj2, ptDist_horiz 50 (1498001 / 9980) 0 (by norm_num)]
  rw [show (1498001 / 9980 : ℝ) - 50 - fourbarCexCfg.couplerLength = 1001 / 9980 by
    norm_num [fourbarCexCfg]]
  rw [show |(1001 : ℝ) / 9980| = 1001 / 9980 by norm_num]
  norm_num

/-- Concrete Piston configuration for the C5 witness. -/
def pistonW : MechanismConfig :=
  { id := "w5", type := MechanismType.piston, visible := true, color := "",
    anchorX := some 0, anchorY := some 0, groundAngle := some 0,
    crankLength := 60, groundLength := 0, couplerLength := 200, rockerLength := 0,
    sliderOffset := 0, couplerPointDist := 0, couplerPointAngle := 0,
    speed1 := some 1, speed2 := none, gearRatio := none, rodLength := none,
    phase := none, showOutputGear := none, outputGearRadius := none }

/-- Witness for C5 at a concrete Piston configuration and drive angle 0. -/
theorem piston_invalid_iff_witness :
    pistonW.type = MechanismType.piston ∧
    ((calculateLinkage pistonW 0).isValid = false ↔
      |pistonW.sliderOffset - pistonLocalJ1y pistonW 0| > pistonW.couplerLength) :=
  ⟨rfl, piston_invalid_iff pistonW 0 rfl⟩

end MechAnim
